import Mathlib

/-!
Verification of the OSM `configurator` package (`pkg/configurator/client.go`):
a resource-watch synchronization client that mirrors a single ConfigMap from
a cluster store, filters events to the watched namespace, closes a one-shot
readiness channel after the initial cache sync, and decodes the ConfigMap's
payload into an `osmConfig` record on demand.

The Go code is shallowly embedded: the informer cache is an association list
from cache keys to stored items, Go panics are `Except.error`, and the YAML
library (an external collaborator per the spec) is modelled from the spec's
wire format.
-/

namespace OSMConfigurator

/-- Embeds the Go struct `osmConfig` of `client.go`: `ConfigVersion int`
(yaml key `config_version`) and `PermissiveTrafficPolicyMode bool`
(yaml key `permissive_traffic_policy_mode`). Field defaults give the Go
zero value `osmConfig{}`. -/
structure osmConfig where
  ConfigVersion : Int := 0
  PermissiveTrafficPolicyMode : Bool := false
deriving DecidableEq, Repr

/-- Embeds the part of `v1.ConfigMap` the code reads: its ObjectMeta
namespace and name, and its `Data map[string]string`. The `Data` map is
carried as an association list whose order is the (arbitrary) Go map
iteration order of one traversal. -/
structure ConfigMap where
  Namespace : String
  Name : String
  Data : List (String × String)
deriving DecidableEq, Repr

/-- An item stored in the informer cache. The Go cache stores `interface{}`
values; `getConfigMap` asserts `item.(*v1.ConfigMap)` without a check, so we
distinguish ConfigMaps from values of any other dynamic type. -/
inductive CacheItem where
  | configMap : ConfigMap → CacheItem
  | otherItem : CacheItem
deriving DecidableEq, Repr

/-- Embeds `cache.MetaNamespaceKeyFunc`: a namespaced object is stored under
the key `<namespace>/<name>` built from the object's own metadata. -/
def metaNamespaceKey (ns name : String) : String :=
  ns ++ "/" ++ name

/-- The informer cache, keyed by `metaNamespaceKey` of each stored object. -/
abbrev Cache := List (String × CacheItem)

/-- Embeds `cache.Store.GetByKey`: look an item up by key. The store's
GetByKey never returns an error for this in-memory store, so the Go
`(item, exists, err)` triple collapses to an `Option`. -/
def GetByKey (cache : Cache) (key : String) : Option CacheItem :=
  match List.find? (fun p => p.1 == key) cache with
  | some p => some p.2
  | none => none

/-- Embeds the fields of `Client` that `getConfigMap` and
`getConfigMapCacheKey` read: the watched namespace and ConfigMap name,
fixed at construction by `NewConfigurator`. -/
structure Client where
  osmNamespace : String
  osmConfigMapName : String
deriving DecidableEq, Repr

/-- Embeds `getConfigMapCacheKey`: `fmt.Sprintf("%s/%s", c.osmNamespace,
c.osmConfigMapName)`. -/
def getConfigMapCacheKey (c : Client) : String :=
  c.osmNamespace ++ "/" ++ c.osmConfigMapName

/-- Splits a character list at each occurrence of a given character,
dropping the separators. Used to cut the payload into lines. -/
def splitOnChar (sep : Char) : List Char → List (List Char)
  | [] => [[]]
  | c :: rest =>
    if c = sep then [] :: splitOnChar sep rest
    else
      match splitOnChar sep rest with
      | [] => [[c]]
      | h :: t => (c :: h) :: t

/-- Splits a character list at each occurrence of the two-character
separator `: ` of the wire format, dropping the separators. -/
def splitColonSpace : List Char → List (List Char)
  | [] => [[]]
  | ':' :: ' ' :: rest => [] :: splitColonSpace rest
  | c :: rest =>
    match splitColonSpace rest with
    | [] => [[c]]
    | h :: t => (c :: h) :: t

/-- Modelled from the spec: one line of the wire format, `<key>: <value>`.
A line that is not of that shape (no `: ` separator, an empty key, a key
containing `:` or a space, or more than one separator) is a syntax error. -/
def parseLine (l : List Char) : Option (String × String) :=
  match splitColonSpace l with
  | [k, v] =>
    if k.isEmpty || k.contains ':' || k.contains ' ' then none
    else some (String.mk k, String.mk v)
  | _ => none

/-- Modelled from the spec: split the payload into nonempty lines and parse
each; any unparsable line makes the whole document a syntax error, after
which nothing is decoded (yaml.v2 aborts on syntax errors). -/
def parseDoc (s : String) : Option (List (String × String)) :=
  List.mapM parseLine ((splitOnChar '\n' s.toList).filter (fun l => ¬ l.isEmpty))

/-- Reads a nonempty all-digit character list as a natural number. -/
def parseNatDigits (l : List Char) : Option Nat :=
  if l.isEmpty || ¬ l.all (fun c => c.isDigit) then none
  else some (l.foldl (fun n c => n * 10 + (c.toNat - 48)) 0)

/-- Modelled from the spec: a YAML integer literal, optionally negated. -/
def parseYamlInt (l : List Char) : Option Int :=
  match l with
  | '-' :: rest => Option.map (fun n => -(n : Int)) (parseNatDigits rest)
  | _ => Option.map (fun n => (n : Int)) (parseNatDigits l)

/-- Modelled from the spec: a YAML boolean literal. -/
def parseYamlBool (s : String) : Option Bool :=
  if s = "true" then some true
  else if s = "false" then some false
  else none

/-- Modelled from the spec: decode one `<key>: <value>` pair into the
record. Recognized keys whose value has the wrong type are skipped and flag
a type error, after which decoding continues (yaml.v2 `TypeError`
semantics); unrecognized keys are ignored. -/
def applyField (acc : osmConfig × Bool) (kv : String × String) : osmConfig × Bool :=
  if kv.1 = "config_version" then
    match parseYamlInt kv.2.toList with
    | some n => ({ acc.1 with ConfigVersion := n }, acc.2)
    | none => (acc.1, true)
  else if kv.1 = "permissive_traffic_policy_mode" then
    match parseYamlBool kv.2 with
    | some b => ({ acc.1 with PermissiveTrafficPolicyMode := b }, acc.2)
    | none => (acc.1, true)
  else acc

/-- Modelled from the spec: `yaml.Unmarshal(config, &conf)` where `conf`
starts as the zero `osmConfig{}`. The YAML library itself is an external
collaborator (out of scope per the spec); this model follows the spec's
wire format (`config_version: <integer>` optional, and
`permissive_traffic_policy_mode: <bool>` optional, default false) and
yaml.v2's documented error behavior: a syntax error decodes nothing and
leaves the struct zero, a type error on one field still decodes the others.
Returns the (possibly partially) decoded record and whether an error was
reported. -/
def yamlUnmarshal (s : String) : osmConfig × Bool :=
  match parseDoc s with
  | none => ({}, true)
  | some kvs => kvs.foldl applyField ({}, false)

/-- Embeds `getConfigMap`. The cache is passed explicitly (it is the mutable
informer store in Go). A Go panic — here only the unchecked type assertion
`item.(*v1.ConfigMap)` — is `Except.error ()`; every non-panicking path
returns `Except.ok`. The `for _, cfg := range configMap.Data` loop leaves
`config` holding the value of the last entry in iteration order. -/
def getConfigMap (c : Client) (cache : Cache) : Except Unit osmConfig :=
  match GetByKey cache (getConfigMapCacheKey c) with
  | none => .ok {}
  | some item =>
    match item with
    | .otherItem => .error ()
    | .configMap configMap =>
      if configMap.Data.length == 0 then .ok {}
      else
        let config := (Option.map (fun p => p.2) configMap.Data.getLast?).getD ""
        .ok (yamlUnmarshal config).1

/-- A reflected Go value as seen by the `reflect` package: a string, a
struct with named fields, or a value of some other kind. -/
inductive GoVal where
  | str : String → GoVal
  | strct : List (String × GoVal) → GoVal
  | otherVal : GoVal

/-- A dynamic value handed to the event handler predicate: a pointer to a
reflected value, or a value `reflect.ValueOf(obj).Elem()` panics on
(a non-pointer, non-interface value). -/
inductive GoObj where
  | ptr : GoVal → GoObj
  | nonPtr : GoObj

/-- Field lookup in a reflected struct's field list. -/
def lookupField (fs : List (String × GoVal)) (n : String) : Option GoVal :=
  match List.find? (fun p => p.1 == n) fs with
  | some p => some p.2
  | none => none

/-- Embeds `reflect.Value.FieldByName`, taking `none` for the zero
`reflect.Value`: on a struct it returns the named field, or the zero Value
when no such field exists; on any non-struct Value — the zero Value
included — it panics (`Except.error`). -/
def fieldByName (v : Option GoVal) (n : String) : Except Unit (Option GoVal) :=
  match v with
  | some (.strct fs) => .ok (lookupField fs n)
  | _ => .error ()

/-- Embeds `reflect.Value.String`, which never panics: it renders a string
Value as its contents, the zero Value as `"<invalid Value>"`, and a Value of
any other kind as a `"<kind Value>"` marker. -/
def valueString (v : Option GoVal) : String :=
  match v with
  | some (.str s) => s
  | some (.strct _) => "<struct Value>"
  | some .otherVal => "<other Value>"
  | none => "<invalid Value>"

/-- Embeds the `shouldObserve` closure of `NewConfigurator`:
`reflect.ValueOf(obj).Elem().FieldByName("ObjectMeta").FieldByName("Namespace").String() == osmNamespace`.
`Elem()` on a non-pointer panics, and each `FieldByName` panics when its
receiver is not a struct Value. -/
def shouldObserve (osmNamespace : String) (obj : GoObj) : Except Unit Bool :=
  match obj with
  | .nonPtr => .error ()
  | .ptr v =>
    match fieldByName (some v) "ObjectMeta" with
    | .error e => .error e
    | .ok om =>
      match fieldByName om "Namespace" with
      | .error e => .error e
      | .ok nsv => .ok (valueString nsv == osmNamespace)

/-- Program counter of the `run` goroutine: it is blocked in
`cache.WaitForCacheSync` until that call returns, after which `run`
returns. -/
inductive RunPC where
  | waitingForSync
  | returned
deriving DecidableEq, Repr

/-- State of the readiness machinery: where the single `run` goroutine is,
whether the `cacheSynced` channel is closed, how many times `close` has
executed on it, and whether `WaitForCacheSync` ever returned true. -/
structure RunState where
  pc : RunPC
  cacheSyncedClosed : Bool
  closeOps : Nat
  syncedObserved : Bool
deriving DecidableEq, Repr

/-- The component's initial state: `NewConfigurator` made `cacheSynced`
with `make(chan interface{})` (open) and started `run`, which is now
blocked in `WaitForCacheSync`. -/
def initRunState : RunState :=
  { pc := .waitingForSync, cacheSyncedClosed := false, closeOps := 0,
    syncedObserved := false }

/-- Embeds the behaviors of `run` and of its environment as a step
relation. `syncCompleted`: `WaitForCacheSync` returns true, `run` executes
`close(c.cacheSynced)` and returns. `stopBeforeSync`: the stop channel
fires before the informer syncs, `WaitForCacheSync` returns false and `run`
logs and returns without closing. `observerOrStop`: an observer waits on
`cacheSynced`, or a further stop request occurs; neither touches the
channel. -/
inductive RunStep : RunState → RunState → Prop
  | syncCompleted (s : RunState) (h : s.pc = .waitingForSync) :
      RunStep s { pc := .returned, cacheSyncedClosed := true,
                  closeOps := s.closeOps + 1, syncedObserved := true }
  | stopBeforeSync (s : RunState) (h : s.pc = .waitingForSync) :
      RunStep s { s with pc := .returned }
  | observerOrStop (s : RunState) : RunStep s s

/-- The states the component can reach from construction. -/
inductive RunReachable : RunState → Prop
  | init : RunReachable initRunState
  | step {s s' : RunState} : RunReachable s → RunStep s s' → RunReachable s'

/-- Embeds the channel construction in `NewConfigurator`:
`announcements: make(chan interface{})` creates the announcements channel
with buffer capacity 0 (unbuffered). -/
def announcementsBufferCap : Nat := 0

/-- Modelled from the spec: the Go channel send performed by the relay's
producers. A send completes without suspending iff a receiver is currently
ready or the channel buffer has free space; otherwise the sender blocks
(§5: the relay's send may suspend if the channel is unbuffered or full). -/
def sendCompletes (cap qlen : Nat) (receiverReady : Bool) : Bool :=
  receiverReady || decide (qlen < cap)

instance : DecidableEq (Except Unit osmConfig) := fun a b =>
  match a, b with
  | .ok x, .ok y => decidable_of_iff (x = y) (by simp)
  | .ok _, .error _ => .isFalse (by simp)
  | .error _, .ok _ => .isFalse (by simp)
  | .error x, .error y => decidable_of_iff (x = y) (by simp)

/-- Looking up the key a cache entry was stored under finds that entry. -/
theorem GetByKey_cons_self (key : String) (it : CacheItem) (rest : Cache) :
    GetByKey ((key, it) :: rest) key = some it := by
  unfold GetByKey
  rw [List.find?_cons_of_pos _ (by simp)]

/-- A successful cache lookup returns an item that is stored in the cache. -/
theorem GetByKey_mem {cache : Cache} {key : String} {it : CacheItem}
    (h : GetByKey cache key = some it) : ∃ k, (k, it) ∈ cache := by
  unfold GetByKey at h
  cases hf : List.find? (fun p => p.1 == key) cache with
  | none => rw [hf] at h; exact absurd h (by simp)
  | some p =>
    rw [hf] at h
    have hit : p.2 = it := by simpa using h
    have hp := List.mem_of_find?_eq_some hf
    exact ⟨p.1, by rw [show (p.1, it) = p from by rw [← hit]]; exact hp⟩

/-- Invariant of the readiness state machine: while `run` is still waiting,
nothing has been closed and no sync was observed; `close` has executed at
most once; and the channel is only ever closed after a sync was observed. -/
theorem runStateInv {s : RunState} (h : RunReachable s) :
    (s.pc = .waitingForSync →
      s.cacheSyncedClosed = false ∧ s.closeOps = 0 ∧ s.syncedObserved = false)
    ∧ s.closeOps ≤ 1
    ∧ (s.cacheSyncedClosed = true → s.syncedObserved = true) := by
  induction h with
  | init => simp [initRunState]
  | step hr hstep ih =>
    cases hstep with
    | syncCompleted ht =>
      obtain ⟨_, ho, _⟩ := ih.1 ht
      exact ⟨by simp, by simp [ho], by simp⟩
    | stopBeforeSync ht => exact ⟨by simp, ih.2.1, ih.2.2⟩
    | observerOrStop => exact ih

/-- C2: if the watched object's sole payload entry is the text
`config_version: 2\npermissive_traffic_policy_mode: true\n` and the object
is cached under the watched (namespace, name) key, then the config accessor
returns the record with ConfigVersion 2 and PermissiveTrafficPolicyMode
true. -/
theorem getConfig_roundtrip (ns n k : String) :
    getConfigMap ⟨ns, n⟩
      [(metaNamespaceKey ns n,
        CacheItem.configMap ⟨ns, n,
          [(k, "config_version: 2\npermissive_traffic_policy_mode: true\n")]⟩)]
      = .ok ⟨2, true⟩ := by
  have hk : getConfigMapCacheKey ⟨ns, n⟩ = metaNamespaceKey ns n := rfl
  unfold getConfigMap
  rw [hk, GetByKey_cons_self]
  rfl

/-- C5: when the watched object is absent from the cache (in particular
before any sync completed, when the cache is empty) and when it is present
with an empty `Data` map, the config accessor returns the zero-valued
record and no panic reaches the caller. -/
theorem getConfig_absent_or_empty (c : Client) (cache : Cache) :
    (GetByKey cache (getConfigMapCacheKey c) = none → getConfigMap c cache = .ok {})
    ∧ (∀ cm : ConfigMap,
        GetByKey cache (getConfigMapCacheKey c) = some (.configMap cm) →
        cm.Data = [] → getConfigMap c cache = .ok {}) := by
  constructor
  · intro h
    unfold getConfigMap
    rw [h]
  · intro cm h hd
    unfold getConfigMap
    rw [h]
    simp [hd]

/-- Witness for C5: on the empty cache (no sync has completed yet) the
accessor returns the zero record. -/
theorem getConfig_absent_or_empty_witness :
    getConfigMap ⟨"osm-system", "osm-config"⟩ [] = .ok {} :=
  (getConfig_absent_or_empty ⟨"osm-system", "osm-config"⟩ []).1 rfl

/-- C6: with watched namespace `osm-system` and name `osm-config`, an
object stored under namespace `default` with the same name and a valid
payload does not satisfy the lookup: the accessor still returns the zero
record, and the lookup key is built from the watched namespace and name. -/
theorem getConfig_wrong_namespace :
    getConfigMap ⟨"osm-system", "osm-config"⟩
      [(metaNamespaceKey "default" "osm-config",
        CacheItem.configMap ⟨"default", "osm-config",
          [("osm.yaml", "config_version: 2\npermissive_traffic_policy_mode: true\n")]⟩)]
      = .ok {}
    ∧ getConfigMapCacheKey ⟨"osm-system", "osm-config"⟩ = "osm-system/osm-config" :=
  ⟨by decide, rfl⟩

/-- C1 counterexample: on the payload
`permissive_traffic_policy_mode: true\nconfig_version: x\n` the decode
reports an error, yet the accessor returns the partially decoded record
with PermissiveTrafficPolicyMode true, which differs from the zero
record. -/
theorem getConfig_decode_error_counterexample :
    (yamlUnmarshal "permissive_traffic_policy_mode: true\nconfig_version: x\n").2 = true
    ∧ getConfigMap ⟨"osm-system", "osm-config"⟩
        [("osm-system/osm-config",
          CacheItem.configMap ⟨"osm-system", "osm-config",
            [("osm.yaml", "permissive_traffic_policy_mode: true\nconfig_version: x\n")]⟩)]
        = .ok ⟨0, true⟩
    ∧ (⟨0, true⟩ : osmConfig) ≠ ({} : osmConfig) := by
  decide

/-- C1 amended: on any payload — decode errors included — the accessor
never panics and returns exactly the record `yaml.Unmarshal` left behind:
the zero record updated by every field that did decode. When the payload is
syntactically invalid (nothing decodes, e.g. `::not yaml::`), that record
is the zero record. -/
theorem getConfig_decode_error_returns_partial (c : Client) (ns n : String)
    (d : List (String × String)) (payload : String)
    (h : Option.map (fun p => p.2) d.getLast? = some payload) :
    getConfigMap c [(getConfigMapCacheKey c, CacheItem.configMap ⟨ns, n, d⟩)]
      = .ok (yamlUnmarshal payload).1
    ∧ (parseDoc payload = none → (yamlUnmarshal payload).1 = {}) := by
  constructor
  · have hd : d ≠ [] := by
      intro he
      rw [he] at h
      simp at h
    unfold getConfigMap
    rw [GetByKey_cons_self]
    have hlen : (d.length == 0) = false := by
      simp [List.length_eq_zero, hd]
    simp [hlen, h]
  · intro hp
    simp [yamlUnmarshal, hp]

/-- Witness for C1 amended: at the undecodable payload `::not yaml::`,
the accessor returns the decoder's record and that record is zero. -/
theorem getConfig_decode_error_returns_partial_witness :
    getConfigMap ⟨"osm-system", "osm-config"⟩
      [(getConfigMapCacheKey ⟨"osm-system", "osm-config"⟩,
        CacheItem.configMap ⟨"osm-system", "osm-config", [("osm.yaml", "::not yaml::")]⟩)]
      = .ok (yamlUnmarshal "::not yaml::").1
    ∧ (parseDoc "::not yaml::" = none → (yamlUnmarshal "::not yaml::").1 = {}) :=
  getConfig_decode_error_returns_partial ⟨"osm-system", "osm-config"⟩
    "osm-system" "osm-config" [("osm.yaml", "::not yaml::")] "::not yaml::" rfl

/-- C10: under the precondition that every item stored in the cache is a
ConfigMap, the unchecked type assertion in `getConfigMap` never fails and
the call never panics; and for a cache holding an item of any other
dynamic type under the watched key, the call panics. -/
theorem getConfigMap_type_assertion :
    (∀ (c : Client) (cache : Cache),
        (∀ k it, (k, it) ∈ cache → ∃ cm, it = CacheItem.configMap cm) →
        ∃ conf, getConfigMap c cache = .ok conf)
    ∧ getConfigMap ⟨"osm-system", "osm-config"⟩
        [("osm-system/osm-config", CacheItem.otherItem)] = .error () := by
  constructor
  · intro c cache hall
    cases hfind : GetByKey cache (getConfigMapCacheKey c) with
    | none =>
      refine ⟨{}, ?_⟩
      unfold getConfigMap
      rw [hfind]
    | some item =>
      obtain ⟨k, hmem⟩ := GetByKey_mem hfind
      obtain ⟨cm, rfl⟩ := hall k item hmem
      unfold getConfigMap
      rw [hfind]
      show ∃ conf,
        (if (cm.Data.length == 0) = true then (Except.ok {} : Except Unit osmConfig)
         else .ok (yamlUnmarshal ((Option.map (fun p => p.2) cm.Data.getLast?).getD "")).1)
        = .ok conf
      split
      · exact ⟨{}, rfl⟩
      · exact ⟨_, rfl⟩
  · decide

/-- Witness for C10: the all-ConfigMaps precondition holds of the empty
cache, so the accessor returns some record there without panicking. -/
theorem getConfigMap_type_assertion_witness :
    ∃ conf, getConfigMap ⟨"osm-system", "osm-config"⟩ [] = .ok conf :=
  getConfigMap_type_assertion.1 ⟨"osm-system", "osm-config"⟩ []
    (by intro k it h; exact absurd h (by simp))

/-- C3 counterexample: on an object that lacks a namespace field entirely
(a pointer to a struct with no `ObjectMeta` field), the filter predicate
panics — the second `FieldByName` runs on the zero `reflect.Value` — rather
than returning false. -/
theorem shouldObserve_missing_ObjectMeta_panics :
    shouldObserve "osm-system" (GoObj.ptr (GoVal.strct [])) = Except.error ()
    ∧ (Except.error () : Except Unit Bool) ≠ Except.ok false :=
  ⟨rfl, fun h => Except.noConfusion h⟩

/-- C3 amended: for observed objects that are pointers to structs carrying
an `ObjectMeta` struct field, the predicate never panics and returns true
iff the reflected `Namespace` string (the `<invalid Value>` marker when the
field is absent) equals the watched namespace; an object lacking the
`ObjectMeta` field altogether makes the predicate panic instead of
returning false. -/
theorem shouldObserve_spec :
    (∀ (ns : String) (fs omfs : List (String × GoVal)),
        lookupField fs "ObjectMeta" = some (GoVal.strct omfs) →
        shouldObserve ns (GoObj.ptr (GoVal.strct fs))
          = Except.ok (valueString (lookupField omfs "Namespace") == ns))
    ∧ (∀ (ns : String) (fs : List (String × GoVal)),
        lookupField fs "ObjectMeta" = none →
        shouldObserve ns (GoObj.ptr (GoVal.strct fs)) = Except.error ()) := by
  constructor
  · intro ns fs omfs h
    simp [shouldObserve, fieldByName, h]
  · intro ns fs h
    simp [shouldObserve, fieldByName, h]

/-- Witness for C3 amended: a pointer to a struct whose `ObjectMeta`
carries `Namespace = "osm-system"` matches the watched namespace
`osm-system`. -/
theorem shouldObserve_spec_witness :
    shouldObserve "osm-system"
      (GoObj.ptr (GoVal.strct
        [("ObjectMeta", GoVal.strct [("Namespace", GoVal.str "osm-system")])]))
      = Except.ok true := by
  have h := shouldObserve_spec.1 "osm-system"
    [("ObjectMeta", GoVal.strct [("Namespace", GoVal.str "osm-system")])]
    [("Namespace", GoVal.str "osm-system")] rfl
  simpa using h

/-- C4: over every reachable state of the readiness machinery, `close` has
executed on the `cacheSynced` channel at most once, and no step — sync
completion, stop request, or an observer waiting — reopens a closed
channel. -/
theorem cacheSynced_closed_at_most_once :
    (∀ s : RunState, RunReachable s → s.closeOps ≤ 1)
    ∧ (∀ s s' : RunState, RunStep s s' →
        s.cacheSyncedClosed = true → s'.cacheSyncedClosed = true) := by
  constructor
  · intro s h
    exact (runStateInv h).2.1
  · intro s s' hstep hcl
    cases hstep with
    | syncCompleted ht => rfl
    | stopBeforeSync ht => exact hcl
    | observerOrStop => exact hcl

/-- Witness for C4: in the initial state, reachable by construction, the
close count is at most one. -/
theorem cacheSynced_closed_at_most_once_witness :
    initRunState.closeOps ≤ 1 :=
  cacheSynced_closed_at_most_once.1 initRunState RunReachable.init

/-- C8: in every reachable state in which the sync-complete condition was
never observed, the readiness channel is still open; and the state in which
`run` has returned after a stop with the channel still open is reachable. -/
theorem run_no_close_without_sync :
    (∀ s : RunState, RunReachable s →
        s.syncedObserved = false → s.cacheSyncedClosed = false)
    ∧ RunReachable { pc := .returned, cacheSyncedClosed := false, closeOps := 0,
                     syncedObserved := false } := by
  constructor
  · intro s h hs
    cases hb : s.cacheSyncedClosed with
    | false => rfl
    | true => exact absurd ((runStateInv h).2.2 hb) (by simp [hs])
  · exact RunReachable.step RunReachable.init (RunStep.stopBeforeSync initRunState rfl)

/-- Witness for C8: the initial state has observed no sync and its channel
is open. -/
theorem run_no_close_without_sync_witness :
    initRunState.cacheSyncedClosed = false :=
  run_no_close_without_sync.1 initRunState RunReachable.init rfl

/-- C7 counterexample: the same two-entry `Data` map, iterated in its two
possible orders, makes the accessor decode different entries and return
different records, so the selection is not a function of the cached map
alone. -/
theorem getConfig_iteration_order_counterexample :
    List.Perm [("a", "config_version: 1"), ("b", "config_version: 2")]
      [("b", "config_version: 2"), ("a", "config_version: 1")]
    ∧ getConfigMap ⟨"osm-system", "osm-config"⟩
        [("osm-system/osm-config",
          CacheItem.configMap ⟨"osm-system", "osm-config",
            [("a", "config_version: 1"), ("b", "config_version: 2")]⟩)]
      ≠ getConfigMap ⟨"osm-system", "osm-config"⟩
        [("osm-system/osm-config",
          CacheItem.configMap ⟨"osm-system", "osm-config",
            [("b", "config_version: 2"), ("a", "config_version: 1")]⟩)] :=
  ⟨List.Perm.swap _ _ _, by decide⟩

/-- C7 amended: the accessor decodes the last `Data` entry in iteration
order, so its result is only independent of the iteration order when the
map has at most one entry; in that case any two iteration orders of the
same map yield the same record. -/
theorem getConfig_single_entry_deterministic (c : Client) (key ns n : String)
    (d1 d2 : List (String × String)) (hp : List.Perm d1 d2) (hlen : d1.length ≤ 1) :
    getConfigMap c [(key, CacheItem.configMap ⟨ns, n, d1⟩)]
      = getConfigMap c [(key, CacheItem.configMap ⟨ns, n, d2⟩)] := by
  have hd : d1 = d2 := by
    cases d1 with
    | nil => exact (List.Perm.eq_nil hp.symm).symm
    | cons x xs =>
      cases xs with
      | nil => exact (List.perm_singleton.mp hp.symm).symm
      | cons y ys => simp [List.length_cons] at hlen
  rw [hd]

/-- Witness for C7 amended: a singleton map decodes identically under its
only iteration order. -/
theorem getConfig_single_entry_deterministic_witness :
    getConfigMap ⟨"osm-system", "osm-config"⟩
      [("osm-system/osm-config",
        CacheItem.configMap ⟨"osm-system", "osm-config", [("a", "config_version: 1")]⟩)]
      = getConfigMap ⟨"osm-system", "osm-config"⟩
        [("osm-system/osm-config",
          CacheItem.configMap ⟨"osm-system", "osm-config", [("a", "config_version: 1")]⟩)] :=
  getConfig_single_entry_deterministic ⟨"osm-system", "osm-config"⟩
    "osm-system/osm-config" "osm-system" "osm-config"
    [("a", "config_version: 1")] [("a", "config_version: 1")]
    (List.Perm.refl _) (by decide)

/-- C9 counterexample: the announcements channel is created unbuffered, and
a blocking send on an unbuffered channel with no ready receiver never
completes, so neither disjunct of the claim holds. -/
theorem announcements_unbuffered_counterexample :
    ¬ (announcementsBufferCap > 0
       ∨ ∀ qlen : Nat, sendCompletes announcementsBufferCap qlen false = true) := by
  intro h
  cases h with
  | inl h => exact absurd h (by decide)
  | inr h => exact absurd (h 0) (by decide)

/-- C9 amended: the announcements channel is unbuffered, and a producer's
send completes only when a receiver is ready: with no consumer draining the
channel, producers block indefinitely. -/
theorem announcements_send_blocks (qlen : Nat) :
    announcementsBufferCap = 0
    ∧ sendCompletes announcementsBufferCap qlen false = false
    ∧ sendCompletes announcementsBufferCap qlen true = true := by
  refine ⟨rfl, ?_, rfl⟩
  simp [sendCompletes, announcementsBufferCap]

/-- Witness for C9 amended: with one queued value, no receiver, and the
channel as constructed, the send does not complete. -/
theorem announcements_send_blocks_witness :
    announcementsBufferCap = 0
    ∧ sendCompletes announcementsBufferCap 0 false = false
    ∧ sendCompletes announcementsBufferCap 0 true = true :=
  announcements_send_blocks 0

end OSMConfigurator
